import Mathlib

/-!
Verification of the nfe-proxy fiscal-document pipeline.

This file gives a shallow embedding, in Lean 4, of the core functions of the
nfe-proxy repository (check-digit computation, access-key assembly, the
document-number sequencer, jurisdiction routing, authority-response parsing,
QR-code hashing, and fixed-decimal field formatting), together with theorems
settling the specification claims about them.

Modelling conventions:
* JavaScript strings are modelled as Lean `String` / `List Char`.
* JavaScript numbers holding integers are modelled as `Nat`; JavaScript
  floating-point values that only flow into decimal formatting are modelled
  as exact rationals `ℚ` (the claims proved about them concern only the
  shape of the formatted output, which does not depend on binary rounding).
* The JSON numbering store (a durable object keyed by `"<issuer>_<series>"`)
  is modelled as a function `String → Option Nat`; the `ultimaAtualizacao`
  timestamp field, which is written but never read, is elided.
* Fallible external steps (certificate parsing, signing, HTTPS transmission)
  are modelled by explicit outcome parameters where a claim is about the
  control flow around them.
-/

namespace NfeProxy

/-! ## Generic string helpers -/

/-- JavaScript `String.prototype.padStart(n, c)`: left-pad to length `n`
with copies of `c`; a string already at least `n` long is unchanged. -/
def padStart (n : Nat) (c : Char) (s : String) : String :=
  String.mk (List.replicate (n - s.length) c) ++ s

/-! ## C1 — check digit (`calcularDV`, src/routes/nfe.js lines 112-124;
the identical function also appears in the NFC-e v2 router and the
high-level NF-e router). -/

/-- `parseInt` applied to a single decimal-digit character, as the source
does with `parseInt(chave43[i])`. -/
def digitVal (c : Char) : Nat := c.toNat - 48

/-- The weight table `pesos = [2, 3, 4, 5, 6, 7, 8, 9]` of `calcularDV`. -/
def pesos : List Nat := [2, 3, 4, 5, 6, 7, 8, 9]

/-- The summation loop of `calcularDV`.  The source walks the key from its
last character to its first while stepping `pesoIndex = (pesoIndex + 1) % 8`;
here the first argument is the key already reversed and the second is
`pesoIndex`. -/
def somaDV : List Char → Nat → Nat
  | [], _ => 0
  | c :: rest, p => digitVal c * pesos.getD p 0 + somaDV rest ((p + 1) % 8)

/-- `calcularDV(chave43)`: mod-11 check digit over the 43-character key
prefix.  Returns `'0'` when the remainder is below 2, otherwise the decimal
rendering of `11 - resto`. -/
def calcularDV (chave43 : List Char) : String :=
  let soma := somaDV chave43.reverse 0
  let resto := soma % 11
  if resto < 2 then "0" else Nat.repr (11 - resto)

/-- The weighted sum exactly as the specification words it: the digit at
distance `k` from the rightmost position is multiplied by the weight
`2, 3, 4, 5, 6, 7, 8, 9` cycling with period 8, starting with weight 2 at
the rightmost digit.  The first argument is the key reversed (rightmost
digit first), the second the distance from the right end. -/
def specSomaFrom : List Char → Nat → Nat
  | [], _ => 0
  | c :: rest, k => digitVal c * (2 + k % 8) + specSomaFrom rest (k + 1)

/-- Weighted mod-11 sum of a key, in the claim's terms. -/
def specSomaPonderada (chave43 : List Char) : Nat :=
  specSomaFrom chave43.reverse 0

/-! ## C2 — access-key assembly (`montarXMLNFe`, src/routes/nfe.js lines
156-175; `montarXMLNFCe`, NFC-e v2 router lines 1326-1337).  Both build
`chave43 = cUF ++ AAMM ++ cnpj ++ mod ++ serieStr ++ nNF ++ tpEmis ++ cNF`
and append `calcularDV(chave43)`; the NF-e assembler uses model `"55"`,
the NFC-e assembler `"65"`. -/

/-- `gerarCodigoNumerico()`: the random 8-digit nonce,
`String(Math.floor(Math.random() * 100000000)).padStart(8, '0')`.
The random draw below `10^8` is the explicit argument `r`. -/
def gerarCodigoNumerico (r : Nat) : String :=
  padStart 8 '0' (Nat.repr r)

/-- Inputs of the access-key fragment of the document assemblers.  `cUF` is
the 2-digit region code from the `UF_CODIGOS` lookup, `AAMM` the year/month
of the emission timestamp, `cnpj` the cleaned issuer tax id, `cNF` the
8-digit nonce. -/
structure ChaveInput where
  cUF : String
  AAMM : String
  cnpj : String
  serie : Nat
  numero : Nat
  cNF : String

/-- The 43-digit key prefix `chave43` exactly as the assemblers build it:
`serieStr = String(serie || 1).padStart(3, '0')`,
`nNF = String(numero).padStart(9, '0')`, `tpEmis = '1'`. -/
def montarChave43 (mod : String) (i : ChaveInput) : String :=
  i.cUF ++ i.AAMM ++ i.cnpj ++ mod ++
    padStart 3 '0' (Nat.repr (if i.serie = 0 then 1 else i.serie)) ++
    padStart 9 '0' (Nat.repr i.numero) ++ "1" ++ i.cNF

/-- `chaveAcesso = chave43 + calcularDV(chave43)`. -/
def montarChaveAcesso (mod : String) (i : ChaveInput) : String :=
  montarChave43 mod i ++ calcularDV (montarChave43 mod i).toList

/-! ## C3 / C4 — the document-number sequencer.
`carregarNumeracao` / `salvarNumeracao` read and write a JSON object file;
the store is modelled as the mapping it holds.  `obterProximoNumero`
(NF-e router lines 1871-1887, NFC-e v2 router lines 1093-1107) is `next`;
`atualizarUltimoNumero` (NF-e router lines 1892-1903) is `advance`.
The NFC-e `/atualizar-numero` route handlers (v1 lines 989-999, v2 lines
1717-1756) write the counter unconditionally. -/

/-- The durable numbering store: JSON object mapping `"<issuer>_<series>"`
keys to the last-issued number (`ultimo`). -/
def NumStore := String → Option Nat

/-- Assignment `numeracao[chave] = { ultimo: v }` of one store entry. -/
def NumStore.set (s : NumStore) (k : String) (v : Nat) : NumStore :=
  fun k' => if k' = k then some v else s k'

/-- Key built by the NF-e sequencer: `` `${cnpj}_${serie}` ``. -/
def chaveNumeracao (cnpj : String) (serie : Nat) : String :=
  cnpj ++ "_" ++ Nat.repr serie

/-- Key built by the NFC-e v1 router: `` `nfce_${cnpj}_${serie}` ``. -/
def chaveNumeracaoNFCe (cnpj : String) (serie : Nat) : String :=
  "nfce_" ++ cnpj ++ "_" ++ Nat.repr serie

/-- Key built by the NFC-e v2 router: `` `nfce_v2_${cnpj}_${serie}` ``. -/
def chaveNumeracaoNFCeV2 (cnpj : String) (serie : Nat) : String :=
  "nfce_v2_" ++ cnpj ++ "_" ++ Nat.repr serie

/-- `obterProximoNumero(cnpj, serie)` of the NF-e router: load the store,
default a missing entry to `{ ultimo: 0 }`, increment, persist, and return
the incremented number together with the persisted store. -/
def obterProximoNumero (store : NumStore) (cnpj : String) (serie : Nat) :
    Nat × NumStore :=
  let chave := chaveNumeracao cnpj serie
  let proximo := (store chave).getD 0 + 1
  (proximo, store.set chave proximo)

/-- `obterProximoNumero(cnpj, serie)` of the NFC-e v2 router: identical
except for the key prefix. -/
def obterProximoNumeroNFCeV2 (store : NumStore) (cnpj : String) (serie : Nat) :
    Nat × NumStore :=
  let chave := chaveNumeracaoNFCeV2 cnpj serie
  let proximo := (store chave).getD 0 + 1
  (proximo, store.set chave proximo)

/-- `atualizarUltimoNumero(cnpj, serie, numero)`: writes `numero` only when
the entry is missing or currently below `numero`; otherwise leaves the
store untouched. -/
def atualizarUltimoNumero (store : NumStore) (cnpj : String)
    (serie numero : Nat) : NumStore :=
  let chave := chaveNumeracao cnpj serie
  match store chave with
  | none => store.set chave numero
  | some ultimo => if ultimo < numero then store.set chave numero else store

/-- The store update performed by the NFC-e v1 `/atualizar-numero` route
handler: `numeracao[chave] = { ultimo: parseInt(ultimo_numero), ... }`,
with no comparison against the current value. -/
def atualizarNumeroRotaNFCe (store : NumStore) (cnpj : String)
    (serie numero : Nat) : NumStore :=
  store.set (chaveNumeracaoNFCe cnpj serie) numero

/-- A sequencer operation: `next` (obterProximoNumero) or `advance`
(atualizarUltimoNumero) aimed at some issuer/series. -/
inductive SeqOp where
  | next (cnpj : String) (serie : Nat)
  | advance (cnpj : String) (serie : Nat) (numero : Nat)

/-- One sequencer operation applied to the store. -/
def applySeqOp (store : NumStore) : SeqOp → NumStore
  | SeqOp.next c s => (obterProximoNumero store c s).2
  | SeqOp.advance c s n => atualizarUltimoNumero store c s n

/-- A sequence of sequencer operations applied in order. -/
def applySeqOps (store : NumStore) : List SeqOp → NumStore
  | [] => store
  | op :: rest => applySeqOps (applySeqOp store op) rest

/-! ## C5 — jurisdiction routing (`sefaz-config.js`).  The three endpoint
clusters: region-operated (`SEFAZ_PROPRIA`), federated cluster A (`SVAN`),
federated cluster B (`SVRS`). -/

/-- A homologation/production URL pair, one entry of a service table. -/
structure UrlPair where
  homologacao : String
  producao : String
deriving DecidableEq

/-- States running their own webservice (`SEFAZ_PROPRIA`). -/
def SEFAZ_PROPRIA : List String :=
  ["AM", "BA", "GO", "MG", "MS", "MT", "PE", "PR", "RS", "SP"]

/-- States served by SVAN (`SVAN_ESTADOS`). -/
def SVAN_ESTADOS : List String := ["MA", "PA", "PI"]

/-- States served by SVRS (`SVRS_ESTADOS`). -/
def SVRS_ESTADOS : List String :=
  ["AC", "AL", "AP", "CE", "DF", "ES", "PB", "RJ", "RN", "RO", "RR", "SC", "SE", "TO"]

/-- Service table of the AM entry of `SEFAZ_URLS`. -/
def urlsAM : String → Option UrlPair := fun s =>
  if s = "NfeStatusServico" then some
    ⟨"https://homnfe.sefaz.am.gov.br/services2/services/NfeStatusServico4",
     "https://nfe.sefaz.am.gov.br/services2/services/NfeStatusServico4"⟩
  else if s = "NfeAutorizacao" then some
    ⟨"https://homnfe.sefaz.am.gov.br/services2/services/NfeAutorizacao4",
     "https://nfe.sefaz.am.gov.br/services2/services/NfeAutorizacao4"⟩
  else if s = "NfeConsultaProtocolo" then some
    ⟨"https://homnfe.sefaz.am.gov.br/services2/services/NfeConsulta4",
     "https://nfe.sefaz.am.gov.br/services2/services/NfeConsulta4"⟩
  else none

/-- Service table of the BA entry of `SEFAZ_URLS`. -/
def urlsBA : String → Option UrlPair := fun s =>
  if s = "NfeStatusServico" then some
    ⟨"https://hnfe.sefaz.ba.gov.br/webservices/NFeStatusServico4/NFeStatusServico4.asmx",
     "https://nfe.sefaz.ba.gov.br/webservices/NFeStatusServico4/NFeStatusServico4.asmx"⟩
  else if s = "NfeAutorizacao" then some
    ⟨"https://hnfe.sefaz.ba.gov.br/webservices/NFeAutorizacao4/NFeAutorizacao4.asmx",
     "https://nfe.sefaz.ba.gov.br/webservices/NFeAutorizacao4/NFeAutorizacao4.asmx"⟩
  else if s = "NfeConsultaProtocolo" then some
    ⟨"https://hnfe.sefaz.ba.gov.br/webservices/NFeConsultaProtocolo4/NFeConsultaProtocolo4.asmx",
     "https://nfe.sefaz.ba.gov.br/webservices/NFeConsultaProtocolo4/NFeConsultaProtocolo4.asmx"⟩
  else none

/-- Service table of the GO entry of `SEFAZ_URLS`. -/
def urlsGO : String → Option UrlPair := fun s =>
  if s = "NfeStatusServico" then some
    ⟨"https://homolog.sefaz.go.gov.br/nfe/services/NFeStatusServico4",
     "https://nfe.sefaz.go.gov.br/nfe/services/NFeStatusServico4"⟩
  else if s = "NfeAutorizacao" then some
    ⟨"https://homolog.sefaz.go.gov.br/nfe/services/NFeAutorizacao4",
     "https://nfe.sefaz.go.gov.br/nfe/services/NFeAutorizacao4"⟩
  else if s = "NfeConsultaProtocolo" then some
    ⟨"https://homolog.sefaz.go.gov.br/nfe/services/NFeConsultaProtocolo4",
     "https://nfe.sefaz.go.gov.br/nfe/services/NFeConsultaProtocolo4"⟩
  else none

/-- Service table of the MG entry of `SEFAZ_URLS`. -/
def urlsMG : String → Option UrlPair := fun s =>
  if s = "NfeStatusServico" then some
    ⟨"https://hnfe.fazenda.mg.gov.br/nfe2/services/NFeStatusServico4",
     "https://nfe.fazenda.mg.gov.br/nfe2/services/NFeStatusServico4"⟩
  else if s = "NfeAutorizacao" then some
    ⟨"https://hnfe.fazenda.mg.gov.br/nfe2/services/NFeAutorizacao4",
     "https://nfe.fazenda.mg.gov.br/nfe2/services/NFeAutorizacao4"⟩
  else if s = "NfeConsultaProtocolo" then some
    ⟨"https://hnfe.fazenda.mg.gov.br/nfe2/services/NFeConsultaProtocolo4",
     "https://nfe.fazenda.mg.gov.br/nfe2/services/NFeConsultaProtocolo4"⟩
  else none

/-- Service table of the MS entry of `SEFAZ_URLS` (the only state entry
that also carries `RecepcaoEvento` and `NfeInutilizacao`). -/
def urlsMS : String → Option UrlPair := fun s =>
  if s = "NfeStatusServico" then some
    ⟨"https://hom.nfe.sefaz.ms.gov.br/ws/NFeStatusServico4",
     "https://nfe.sefaz.ms.gov.br/ws/NFeStatusServico4"⟩
  else if s = "NfeAutorizacao" then some
    ⟨"https://hom.nfe.sefaz.ms.gov.br/ws/NFeAutorizacao4",
     "https://nfe.sefaz.ms.gov.br/ws/NFeAutorizacao4"⟩
  else if s = "NfeConsultaProtocolo" then some
    ⟨"https://hom.nfe.sefaz.ms.gov.br/ws/NFeConsultaProtocolo4",
     "https://nfe.sefaz.ms.gov.br/ws/NFeConsultaProtocolo4"⟩
  else if s = "RecepcaoEvento" then some
    ⟨"https://hom.nfe.sefaz.ms.gov.br/ws/NFeRecepcaoEvento4",
     "https://nfe.sefaz.ms.gov.br/ws/NFeRecepcaoEvento4"⟩
  else if s = "NfeInutilizacao" then some
    ⟨"https://hom.nfe.sefaz.ms.gov.br/ws/NFeInutilizacao4",
     "https://nfe.sefaz.ms.gov.br/ws/NFeInutilizacao4"⟩
  else none

/-- Service table of the MT entry of `SEFAZ_URLS`. -/
def urlsMT : String → Option UrlPair := fun s =>
  if s = "NfeStatusServico" then some
    ⟨"https://homologacao.sefaz.mt.gov.br/nfews/v2/services/NfeStatusServico4",
     "https://nfe.sefaz.mt.gov.br/nfews/v2/services/NfeStatusServico4"⟩
  else if s = "NfeAutorizacao" then some
    ⟨"https://homologacao.sefaz.mt.gov.br/nfews/v2/services/NfeAutorizacao4",
     "https://nfe.sefaz.mt.gov.br/nfews/v2/services/NfeAutorizacao4"⟩
  else if s = "NfeConsultaProtocolo" then some
    ⟨"https://homologacao.sefaz.mt.gov.br/nfews/v2/services/NfeConsulta4",
     "https://nfe.sefaz.mt.gov.br/nfews/v2/services/NfeConsulta4"⟩
  else none

/-- Service table of the PE entry of `SEFAZ_URLS`. -/
def urlsPE : String → Option UrlPair := fun s =>
  if s = "NfeStatusServico" then some
    ⟨"https://nfehomolog.sefaz.pe.gov.br/nfe-service/services/NFeStatusServico4",
     "https://nfe.sefaz.pe.gov.br/nfe-service/services/NFeStatusServico4"⟩
  else if s = "NfeAutorizacao" then some
    ⟨"https://nfehomolog.sefaz.pe.gov.br/nfe-service/services/NFeAutorizacao4",
     "https://nfe.sefaz.pe.gov.br/nfe-service/services/NFeAutorizacao4"⟩
  else if s = "NfeConsultaProtocolo" then some
    ⟨"https://nfehomolog.sefaz.pe.gov.br/nfe-service/services/NFeConsultaProtocolo4",
     "https://nfe.sefaz.pe.gov.br/nfe-service/services/NFeConsultaProtocolo4"⟩
  else none

/-- Service table of the PR entry of `SEFAZ_URLS`. -/
def urlsPR : String → Option UrlPair := fun s =>
  if s = "NfeStatusServico" then some
    ⟨"https://homologacao.nfe.sefa.pr.gov.br/nfe/NFeStatusServico4",
     "https://nfe.sefa.pr.gov.br/nfe/NFeStatusServico4"⟩
  else if s = "NfeAutorizacao" then some
    ⟨"https://homologacao.nfe.sefa.pr.gov.br/nfe/NFeAutorizacao4",
     "https://nfe.sefa.pr.gov.br/nfe/NFeAutorizacao4"⟩
  else if s = "NfeConsultaProtocolo" then some
    ⟨"https://homologacao.nfe.sefa.pr.gov.br/nfe/NFeConsultaProtocolo4",
     "https://nfe.sefa.pr.gov.br/nfe/NFeConsultaProtocolo4"⟩
  else none

/-- Service table of the RS entry of `SEFAZ_URLS`. -/
def urlsRS : String → Option UrlPair := fun s =>
  if s = "NfeStatusServico" then some
    ⟨"https://nfe-homologacao.sefazrs.rs.gov.br/ws/NfeStatusServico/NfeStatusServico4.asmx",
     "https://nfe.sefazrs.rs.gov.br/ws/NfeStatusServico/NfeStatusServico4.asmx"⟩
  else if s = "NfeAutorizacao" then some
    ⟨"https://nfe-homologacao.sefazrs.rs.gov.br/ws/NfeAutorizacao/NFeAutorizacao4.asmx",
     "https://nfe.sefazrs.rs.gov.br/ws/NfeAutorizacao/NFeAutorizacao4.asmx"⟩
  else if s = "NfeConsultaProtocolo" then some
    ⟨"https://nfe-homologacao.sefazrs.rs.gov.br/ws/NfeConsulta/NfeConsulta4.asmx",
     "https://nfe.sefazrs.rs.gov.br/ws/NfeConsulta/NfeConsulta4.asmx"⟩
  else none

/-- Service table of the SP entry of `SEFAZ_URLS`. -/
def urlsSP : String → Option UrlPair := fun s =>
  if s = "NfeStatusServico" then some
    ⟨"https://homologacao.nfe.fazenda.sp.gov.br/ws/nfestatusservico4.asmx",
     "https://nfe.fazenda.sp.gov.br/ws/nfestatusservico4.asmx"⟩
  else if s = "NfeAutorizacao" then some
    ⟨"https://homologacao.nfe.fazenda.sp.gov.br/ws/nfeautorizacao4.asmx",
     "https://nfe.fazenda.sp.gov.br/ws/nfeautorizacao4.asmx"⟩
  else if s = "NfeConsultaProtocolo" then some
    ⟨"https://homologacao.nfe.fazenda.sp.gov.br/ws/nfeconsultaprotocolo4.asmx",
     "https://nfe.fazenda.sp.gov.br/ws/nfeconsultaprotocolo4.asmx"⟩
  else none

/-- Service table of the SVAN entry of `SEFAZ_URLS` (federated cluster A). -/
def urlsSVAN : String → Option UrlPair := fun s =>
  if s = "NfeStatusServico" then some
    ⟨"https://hom.sefazvirtual.fazenda.gov.br/NFeStatusServico4/NFeStatusServico4.asmx",
     "https://www.sefazvirtual.fazenda.gov.br/NFeStatusServico4/NFeStatusServico4.asmx"⟩
  else if s = "NfeAutorizacao" then some
    ⟨"https://hom.sefazvirtual.fazenda.gov.br/NFeAutorizacao4/NFeAutorizacao4.asmx",
     "https://www.sefazvirtual.fazenda.gov.br/NFeAutorizacao4/NFeAutorizacao4.asmx"⟩
  else if s = "NfeConsultaProtocolo" then some
    ⟨"https://hom.sefazvirtual.fazenda.gov.br/NFeConsultaProtocolo4/NFeConsultaProtocolo4.asmx",
     "https://www.sefazvirtual.fazenda.gov.br/NFeConsultaProtocolo4/NFeConsultaProtocolo4.asmx"⟩
  else none

/-- Service table of the SVRS entry of `SEFAZ_URLS` (federated cluster B). -/
def urlsSVRS : String → Option UrlPair := fun s =>
  if s = "NfeStatusServico" then some
    ⟨"https://nfe-homologacao.svrs.rs.gov.br/ws/NfeStatusServico/NfeStatusServico4.asmx",
     "https://nfe.svrs.rs.gov.br/ws/NfeStatusServico/NfeStatusServico4.asmx"⟩
  else if s = "NfeAutorizacao" then some
    ⟨"https://nfe-homologacao.svrs.rs.gov.br/ws/NfeAutorizacao/NFeAutorizacao4.asmx",
     "https://nfe.svrs.rs.gov.br/ws/NfeAutorizacao/NFeAutorizacao4.asmx"⟩
  else if s = "NfeConsultaProtocolo" then some
    ⟨"https://nfe-homologacao.svrs.rs.gov.br/ws/NfeConsulta/NfeConsulta4.asmx",
     "https://nfe.svrs.rs.gov.br/ws/NfeConsulta/NfeConsulta4.asmx"⟩
  else none

/-- `SEFAZ_URLS`: the top-level table mapping a state code (or the cluster
names `SVAN` / `SVRS`) to its service table. -/
def SEFAZ_URLS : String → Option (String → Option UrlPair) := fun uf =>
  if uf = "AM" then some urlsAM
  else if uf = "BA" then some urlsBA
  else if uf = "GO" then some urlsGO
  else if uf = "MG" then some urlsMG
  else if uf = "MS" then some urlsMS
  else if uf = "MT" then some urlsMT
  else if uf = "PE" then some urlsPE
  else if uf = "PR" then some urlsPR
  else if uf = "RS" then some urlsRS
  else if uf = "SP" then some urlsSP
  else if uf = "SVAN" then some urlsSVAN
  else if uf = "SVRS" then some urlsSVRS
  else none

/-- JavaScript `uf.toUpperCase()` for the ASCII state codes, written as a
structurally recursive map over the characters. -/
def toUpperStr (s : String) : String :=
  String.mk (s.data.map Char.toUpper)

/-- `getSefazUrls(uf, servico)`: upper-case the state code; a state in
`SEFAZ_PROPRIA` whose table exists resolves there (falling back to the
SVRS entry when the service is missing from the state table); otherwise a
state in `SVAN_ESTADOS` resolves in the SVAN table; every other state
resolves in the SVRS table. -/
def getSefazUrls (uf servico : String) : Option UrlPair :=
  match if toUpperStr uf ∈ SEFAZ_PROPRIA then SEFAZ_URLS (toUpperStr uf) else none with
  | some tabela =>
    match tabela servico with
    | some urls => some urls
    | none => urlsSVRS servico
  | none =>
    if toUpperStr uf ∈ SVAN_ESTADOS then urlsSVAN servico
    else urlsSVRS servico

/-! ## C6 — authority-response parsing and the batch-received status.
`parseAutorizacaoResponse` (src/routes/sefaz.js lines 404-421) extracts
the first regex match of each tag from the response; the high-level NF-e
`/emitir` route re-extracts `cStat`/`xMotivo` from inside the `protNFe`
block whenever the top-level status is 104.  The JavaScript regexes are
modelled by leftmost-match scanners over the character list. -/

/-- Match a literal character sequence at the head of the input, returning
the remainder on success. -/
def matchLit : List Char → List Char → Option (List Char)
  | [], rest => some rest
  | _ :: _, [] => none
  | l :: ls, c :: cs => if c = l then matchLit ls cs else none

/-- Leftmost match: try the pattern at every suffix, earliest first, the
way a JavaScript regex `String.match` scans. -/
def scanFirst {α : Type} (f : List Char → Option α) : List Char → Option α
  | [] => none
  | c :: rest =>
    match f (c :: rest) with
    | some a => some a
    | none => scanFirst f rest

/-- The regex `<tag>(\d+)</tag>` applied at the current position: the
literal open tag, a maximal nonempty digit run, then the literal close
tag. -/
def matchTagDigitsHere (tag : List Char) (s : List Char) : Option (List Char) :=
  match matchLit ('<' :: tag ++ ['>']) s with
  | none => none
  | some r1 =>
    let ds := r1.takeWhile Char.isDigit
    if ds.isEmpty then none
    else
      match matchLit ('<' :: '/' :: tag ++ ['>']) (r1.dropWhile Char.isDigit) with
      | none => none
      | some _ => some ds

/-- The regex `<tag>([^<]+)</tag>` applied at the current position. -/
def matchTagTextHere (tag : List Char) (s : List Char) : Option (List Char) :=
  match matchLit ('<' :: tag ++ ['>']) s with
  | none => none
  | some r1 =>
    let ds := r1.takeWhile (fun c => c != '<')
    if ds.isEmpty then none
    else
      match matchLit ('<' :: '/' :: tag ++ ['>']) (r1.dropWhile (fun c => c != '<')) with
      | none => none
      | some _ => some ds

/-- The `[^>]*>` part of the `protNFe` regex: drop everything up to and
including the first `>`. -/
def dropToGt : List Char → Option (List Char)
  | [] => none
  | c :: cs => if c = '>' then some cs else dropToGt cs

/-- The lazy `([\s\S]*?)` before a closing literal: the content up to the
first occurrence of the literal, or `none` when the literal never occurs. -/
def takeUntilLit (lit : List Char) : List Char → Option (List Char)
  | [] => none
  | c :: cs =>
    match matchLit lit (c :: cs) with
    | some _ => some []
    | none => (takeUntilLit lit cs).map (c :: ·)

/-- The regex `<protNFe[^>]*>([\s\S]*?)</protNFe>` applied at the current
position. -/
def matchProtNFeHere (s : List Char) : Option (List Char) :=
  match matchLit "<protNFe".toList s with
  | none => none
  | some r1 =>
    match dropToGt r1 with
    | none => none
    | some r2 => takeUntilLit "</protNFe>".toList r2

/-- `parseInt` on a captured digit run. -/
def parseIntDigits (ds : List Char) : Nat :=
  ds.foldl (fun a c => a * 10 + digitVal c) 0

/-- The record returned by `parseAutorizacaoResponse` in sefaz.js: first
`cStat` digits (0 when absent), first `xMotivo` text (a fallback string
when absent), and the first `nRec`/`chNFe`/`nProt`/`protNFe` captures
(null when absent). -/
structure AutorizacaoData where
  cStat : Nat
  xMotivo : List Char
  nRec : Option (List Char)
  chNFe : Option (List Char)
  nProt : Option (List Char)
  protNFe : Option (List Char)

/-- `parseAutorizacaoResponse(xmlResponse)` of sefaz.js. -/
def parseAutorizacaoResponse (xmlResponse : List Char) : AutorizacaoData :=
  let cStatMatch := scanFirst (matchTagDigitsHere "cStat".toList) xmlResponse
  let xMotivoMatch := scanFirst (matchTagTextHere "xMotivo".toList) xmlResponse
  let nRecMatch := scanFirst (matchTagDigitsHere "nRec".toList) xmlResponse
  let protNFeMatch := scanFirst matchProtNFeHere xmlResponse
  let chNFeMatch := scanFirst (matchTagDigitsHere "chNFe".toList) xmlResponse
  let nProtMatch := scanFirst (matchTagDigitsHere "nProt".toList) xmlResponse
  { cStat := match cStatMatch with
      | some ds => parseIntDigits ds
      | none => 0
    xMotivo := match xMotivoMatch with
      | some t => t
      | none => "Resposta inválida".toList
    nRec := nRecMatch
    chNFe := chNFeMatch
    nProt := nProtMatch
    protNFe := protNFeMatch }

/-- JavaScript truthiness of the `protNFe` field (`null` and the empty
string are falsy). -/
def protTruthy : Option (List Char) → Bool
  | some l => !l.isEmpty
  | none => false

/-- The status reported by the high-level NF-e `/emitir` route. -/
structure EmitirStatus where
  nfeCstat : Nat
  nfeXMotivo : List Char
  sucesso : Bool

/-- The post-processing of the NF-e `/emitir` route: when the
authorization result has `cStat === 104` and a truthy `protNFe`, re-extract
`cStat` and `xMotivo` from inside the protocol block; success is
`nfeCstat === 100`. -/
def emitirNFeStatus (result : AutorizacaoData) : EmitirStatus :=
  if result.cStat = 104 ∧ protTruthy result.protNFe = true then
    let p := result.protNFe.getD []
    let cStatMatch := scanFirst (matchTagDigitsHere "cStat".toList) p
    let xMotivoMatch := scanFirst (matchTagTextHere "xMotivo".toList) p
    let nfeCstat := match cStatMatch with
      | some ds => parseIntDigits ds
      | none => result.cStat
    let nfeXMotivo := match xMotivoMatch with
      | some t => t
      | none => result.xMotivo
    ⟨nfeCstat, nfeXMotivo, nfeCstat == 100⟩
  else
    ⟨result.cStat, result.xMotivo, result.cStat == 100⟩

/-- A sample synchronous authorization reply: lot processed (104) wrapping
an authorized document protocol (100). -/
def resposta104Exemplo : List Char :=
  ("<retEnviNFe versao=\"4.00\"><tpAmb>2</tpAmb><cStat>104</cStat>" ++
   "<xMotivo>Lote processado</xMotivo><protNFe versao=\"4.00\"><infProt>" ++
   "<chNFe>50251011222333000181650010000000011234567897</chNFe>" ++
   "<cStat>100</cStat><xMotivo>Autorizado o uso da NF-e</xMotivo>" ++
   "<nProt>123456789012345</nProt></infProt></protNFe></retEnviNFe>").toList

/-- The `protNFe` capture of the sample reply. -/
def protNFeExemplo : List Char :=
  ("<infProt><chNFe>50251011222333000181650010000000011234567897</chNFe>" ++
   "<cStat>100</cStat><xMotivo>Autorizado o uso da NF-e</xMotivo>" ++
   "<nProt>123456789012345</nProt></infProt>").toList

/-! ## C7 — receipt QR-code hash (`gerarQRCode`, NFC-e v2 router lines
1176-1206): SHA-1 over
`` `${chaveAcesso}|${nVersao}|${tpAmb}|${cIdToken}${csc}` ``,
hex-encoded and upper-cased.  SHA-1 is implemented below on byte lists
with explicit 32-bit arithmetic. -/

/-- Truncation to 32 bits. -/
def w32 (n : Nat) : Nat := n % 4294967296

/-- 32-bit left rotation by `b` (for `b ≤ 32`). -/
def rotl (b n : Nat) : Nat := w32 (n * 2 ^ b + n / 2 ^ (32 - b))

/-- UTF-8 encoding of one character (Node's default encoding of the hash
input string). -/
def utf8Char (c : Char) : List Nat :=
  let n := c.toNat
  if n < 128 then [n]
  else if n < 2048 then [192 + n / 64, 128 + n % 64]
  else if n < 65536 then [224 + n / 4096, 128 + n / 64 % 64, 128 + n % 64]
  else [240 + n / 262144, 128 + n / 4096 % 64, 128 + n / 64 % 64, 128 + n % 64]

/-- UTF-8 bytes of a string. -/
def utf8Bytes (s : String) : List Nat :=
  (s.data.map utf8Char).join

/-- Big-endian bytes of a value, fixed width. -/
def beBytes : Nat → Nat → List Nat
  | 0, _ => []
  | k + 1, n => (n / 2 ^ (8 * k)) % 256 :: beBytes k n

/-- The five-word SHA-1 state. -/
structure Sha1State where
  a : Nat
  b : Nat
  c : Nat
  d : Nat
  e : Nat

/-- SHA-1 round constants. -/
def sha1K (t : Nat) : Nat :=
  if t < 20 then 1518500249
  else if t < 40 then 1859775393
  else if t < 60 then 2400959708
  else 3395469782

/-- SHA-1 round functions (32-bit complement written as subtraction from
`2^32 - 1`; the state words are kept below `2^32` throughout). -/
def sha1F (t b c d : Nat) : Nat :=
  if t < 20 then (b &&& c) ||| ((4294967295 - b) &&& d)
  else if t < 40 then b ^^^ c ^^^ d
  else if t < 60 then (b &&& c) ||| (b &&& d) ||| (c &&& d)
  else b ^^^ c ^^^ d

/-- Group a byte list into big-endian 32-bit words. -/
def bytesToWords : List Nat → List Nat
  | b1 :: b2 :: b3 :: b4 :: rest =>
    (b1 * 16777216 + b2 * 65536 + b3 * 256 + b4) :: bytesToWords rest
  | _ => []

/-- Extend the 16-word message schedule by `k` further words. -/
def extendW (w : List Nat) : Nat → List Nat
  | 0 => w
  | k + 1 =>
    let prev := extendW w k
    let t := prev.length
    prev ++ [rotl 1 (prev.getD (t - 3) 0 ^^^ prev.getD (t - 8) 0 ^^^
      prev.getD (t - 14) 0 ^^^ prev.getD (t - 16) 0)]

/-- One SHA-1 round. -/
def sha1Step (t wt : Nat) (s : Sha1State) : Sha1State :=
  ⟨w32 (rotl 5 s.a + sha1F t s.b s.c s.d + s.e + sha1K t + wt),
   s.a, rotl 30 s.b, s.c, s.d⟩

/-- The 80-round loop over the message schedule. -/
def sha1Loop : Nat → List Nat → Sha1State → Sha1State
  | _, [], s => s
  | t, wt :: rest, s => sha1Loop (t + 1) rest (sha1Step t wt s)

/-- Compress one 64-byte chunk into the state. -/
def sha1Chunk (h : Sha1State) (chunk : List Nat) : Sha1State :=
  let w := extendW (bytesToWords chunk) 64
  let s := sha1Loop 0 w h
  ⟨w32 (h.a + s.a), w32 (h.b + s.b), w32 (h.c + s.c),
   w32 (h.d + s.d), w32 (h.e + s.e)⟩

/-- Fold the compression over the `n` 64-byte chunks of the padded
message. -/
def sha1Chunks : Nat → Sha1State → List Nat → Sha1State
  | 0, h, _ => h
  | n + 1, h, bytes => sha1Chunks n (sha1Chunk h (bytes.take 64)) (bytes.drop 64)

/-- SHA-1 padding: `0x80`, zeros to 56 mod 64, then the 64-bit big-endian
bit length. -/
def sha1Pad (msg : List Nat) : List Nat :=
  let len := msg.length
  msg ++ 128 :: List.replicate ((119 - len % 64) % 64) 0 ++ beBytes 8 (len * 8)

/-- The SHA-1 initialization vector. -/
def sha1Init : Sha1State :=
  ⟨1732584193, 4023233417, 2562383102, 271733878, 3285377520⟩

/-- SHA-1 of a byte list, as the 20-byte digest.  The padded message
length is always a multiple of 64. -/
def sha1 (msg : List Nat) : List Nat :=
  let padded := sha1Pad msg
  let s := sha1Chunks (padded.length / 64) sha1Init padded
  beBytes 4 s.a ++ beBytes 4 s.b ++ beBytes 4 s.c ++ beBytes 4 s.d ++ beBytes 4 s.e

/-- One lower-case hexadecimal digit. -/
def hexCharLower (n : Nat) : Char :=
  if n < 10 then Char.ofNat (48 + n) else Char.ofNat (87 + n)

/-- Lower-case hex encoding of a byte list (Node `digest('hex')`). -/
def hexLower (bytes : List Nat) : String :=
  String.mk ((bytes.map (fun b => [hexCharLower (b / 16), hexCharLower (b % 16)])).join)

/-- `crypto.createHash('sha1').update(s).digest('hex').toUpperCase()`. -/
def sha1HexUpper (s : String) : String :=
  toUpperStr (hexLower (sha1 (utf8Bytes s)))

/-- The result of `gerarQRCode` in the NFC-e v2 router. -/
structure QRCodeResult where
  qrCodeUrl : String
  urlChave : String
  cHashQRCode : String

/-- `gerarQRCode(chaveAcesso, tpAmb, cscId, csc, uf)` (NFC-e v2 router):
resolve the QR-code base URL and public-consultation URL (falling back to
the fixed MS defaults when the config table has no entry — the shipped
`SEFAZ_URLS` carries neither key), pad the CSC id to 6 digits, hash
`` `${chaveAcesso}|2|${tpAmb}|${cIdToken}${csc}` `` with SHA-1, and build
the final URL. -/
def gerarQRCode (chaveAcesso tpAmb cscId csc uf : String) : QRCodeResult :=
  let ufUpper := toUpperStr (if uf.isEmpty then "MS" else uf)
  let urls := SEFAZ_URLS ufUpper
  let urlBase :=
    match urls with
    | some t =>
      match t "NfceQRCode" with
      | some pair => if tpAmb = "1" then pair.producao else pair.homologacao
      | none => "https://hom.nfce.sefaz.ms.gov.br/nfce/qrcode"
    | none => "https://hom.nfce.sefaz.ms.gov.br/nfce/qrcode"
  let urlChave :=
    match urls with
    | some t =>
      match t "NfceConsultaPublica" with
      | some pair => if tpAmb = "1" then pair.producao else pair.homologacao
      | none => "http://www.dfe.ms.gov.br/nfce/consulta"
    | none => "http://www.dfe.ms.gov.br/nfce/consulta"
  let cIdToken := padStart 6 '0' cscId
  let nVersao := "2"
  let dadosParaHash := chaveAcesso ++ "|" ++ nVersao ++ "|" ++ tpAmb ++ "|" ++ cIdToken ++ csc
  let cHashQRCode := sha1HexUpper dadosParaHash
  let qrCodeUrl := urlBase ++ "?p=" ++ chaveAcesso ++ "|" ++ nVersao ++ "|" ++ tpAmb ++
    "|" ++ cIdToken ++ "|" ++ cHashQRCode
  ⟨qrCodeUrl, urlChave, cHashQRCode⟩

/-! ## C8 — fixed-decimal field formatting.  The NFC-e v2 item loop
(lines 1352-1372) renders `qCom`/`vUnCom`/`qTrib`/`vUnTrib` with
`toFixed(4)` and every monetary value with `toFixed(2)`; the direct NF-e
assembler (src/routes/nfe.js lines 191-207) renders its quantity and
unit-price fields with `formatarValor` = `toFixed(2)` instead. -/

/-- JavaScript `Number.prototype.toFixed(k)`, modelled on exact rationals:
round to `k` decimals and render with exactly `k` digits after the point.
(The claims proved below concern only the shape of the output for
nonnegative inputs, which is independent of binary-float rounding.) -/
def toFixed (k : Nat) (q : ℚ) : String :=
  let scaled : Int := ⌊q * (10 : ℚ) ^ k + 1 / 2⌋
  let n := scaled.natAbs
  (if scaled < 0 then "-" else "") ++ Nat.repr (n / 10 ^ k) ++ "." ++
    padStart k '0' (Nat.repr (n % 10 ^ k))

/-- `formatarValor(valor)` = `Number(valor || 0).toFixed(2)`. -/
def formatarValor (valor : Option ℚ) : String :=
  toFixed 2 (valor.getD 0)

/-- `formatarValorUnitario(valor)` = `Number(valor || 0).toFixed(4)`. -/
def formatarValorUnitario (valor : Option ℚ) : String :=
  toFixed 4 (valor.getD 0)

/-- The numeric fields of one request line item. -/
structure Item where
  valor_total : Option ℚ
  valor_unitario : Option ℚ
  quantidade : Option ℚ

/-- The rendered numeric fields of one `<det>` block. -/
structure ItemCampos where
  qCom : String
  vUnCom : String
  vProd : String
  qTrib : String
  vUnTrib : String

/-- The field computation of the NFC-e v2 item loop:
`vItem = formatarValor(item.valor_total)`,
`vUnit = formatarValorUnitario(item.valor_unitario)`,
`qCom = Number(item.quantidade || 1).toFixed(4)`; the XML places `qCom`
again as `qTrib` and `vUnit` again as `vUnTrib`. -/
def montarItemNFCe (item : Item) : ItemCampos :=
  let vItem := formatarValor item.valor_total
  let vUnit := formatarValorUnitario item.valor_unitario
  let qCom := toFixed 4 (item.quantidade.getD 1)
  ⟨qCom, vUnit, vItem, qCom, vUnit⟩

/-- The field computation of the direct NF-e assembler's item loop
(src/routes/nfe.js): quantity and unit price go through `formatarValor`,
i.e. `toFixed(2)`. -/
def montarItemNFe (item : Item) : ItemCampos :=
  let vItem := formatarValor item.valor_total
  let vUnit := formatarValor item.valor_unitario
  let qCom := formatarValor item.quantidade
  ⟨qCom, vUnit, vItem, qCom, vUnit⟩

/-- The rendered totals of the NFC-e assembler: `vProd` accumulates
`parseFloat(item.valor_total || 0)`, `vNF = vProd`, and the payment value
is `pagamento?.valor || vNF` (a missing or zero payment value falls back
to the document total). -/
def totaisNFCe (itens : List Item) (pagamentoValor : Option ℚ) :
    String × String × String :=
  let vProd : ℚ := (itens.map (fun it => it.valor_total.getD 0)).sum
  let vNF := vProd
  let vPagVal : ℚ :=
    match pagamentoValor with
    | some v => if v = 0 then vNF else v
    | none => vNF
  (formatarValor (some vProd), formatarValor (some vNF), formatarValor (some vPagVal))

/-- The string `s` is rendered with exactly `k` digits after the decimal
point: an integer part free of points, one point, then `k` digit
characters. -/
def hasDecimals (s : String) (k : Nat) : Prop :=
  ∃ ip fp : String, s = ip ++ "." ++ fp ∧ fp.length = k ∧
    (∀ c ∈ fp.data, c.isDigit) ∧ '.' ∉ ip.data

/-! ## C10 — number consumption in the NFC-e v2 emission route
(`POST /api/nfce/v2/emitir`, lines 1571-1711).  After the input
validations the route draws `obterProximoNumero` (persisting the
incremented counter) and only then signs, resolves the endpoint and
transmits; its catch handler replies 500 without touching the numbering
store. -/

/-- `str.replace(/\D/g, '')`. -/
def limparDigitos (s : String) : String :=
  String.mk (s.data.filter Char.isDigit)

/-- The request fields of the NFC-e v2 emission route that drive its
control flow. -/
structure EmitirNFCeReq where
  emitenteCnpj : Option String
  itens : List Item
  certificado : Option String
  certificadoSenha : Option String
  cscId : Option String
  cscToken : Option String
  serie : Nat
  uf : Option String

/-- Outcomes of the route's external steps: whether certificate parsing
and signing succeed, whether the HTTPS round trip succeeds, and the parsed
reply. -/
structure PassosExternos where
  assinaturaOk : Bool
  envioOk : Bool
  resposta : AutorizacaoData

/-- The reply of the emission route, at the granularity the claim needs. -/
inductive EmitirResultado where
  | badRequest
  | erroInterno
  | autorizada (numero : Nat)
  | rejeitada (cStat : Nat) (numero : Nat)
deriving DecidableEq

/-- The cleaned issuer id used by the route. -/
def emitirCnpj (req : EmitirNFCeReq) : String :=
  limparDigitos (req.emitenteCnpj.getD "")

/-- `serie || 1`. -/
def emitirSerie (req : EmitirNFCeReq) : Nat :=
  if req.serie = 0 then 1 else req.serie

/-- Control flow of `POST /api/nfce/v2/emitir`: the four validations in
source order (each a 400 before any numbering), then
`obterProximoNumero`, then signing, the `NfceAutorizacao` lookup in the
shipped `SEFAZ_URLS` table, and transmission; every later failure lands in
the catch handler, which replies 500 and leaves the store as the sequencer
wrote it. -/
def emitirNFCeV2 (store : NumStore) (req : EmitirNFCeReq)
    (passos : PassosExternos) : NumStore × EmitirResultado :=
  if req.emitenteCnpj.isNone ∨ (req.emitenteCnpj.getD "").isEmpty then
    (store, EmitirResultado.badRequest)
  else if req.itens.isEmpty then (store, EmitirResultado.badRequest)
  else if req.certificado.isNone ∨ req.certificadoSenha.isNone then
    (store, EmitirResultado.badRequest)
  else if req.cscId.isNone ∨ req.cscToken.isNone then
    (store, EmitirResultado.badRequest)
  else
    let r := obterProximoNumeroNFCeV2 store (emitirCnpj req) (emitirSerie req)
    let numero := r.1
    let store1 := r.2
    if passos.assinaturaOk = false then (store1, EmitirResultado.erroInterno)
    else
      let ufUpper := toUpperStr (match req.uf with
        | some u => if u.isEmpty then "MS" else u
        | none => "MS")
      match SEFAZ_URLS ufUpper with
      | none => (store1, EmitirResultado.erroInterno)
      | some t =>
        match t "NfceAutorizacao" with
        | none => (store1, EmitirResultado.erroInterno)
        | some _ =>
          if passos.envioOk = false then (store1, EmitirResultado.erroInterno)
          else if passos.resposta.cStat = 100 then
            (store1, EmitirResultado.autorizada numero)
          else (store1, EmitirResultado.rejeitada passos.resposta.cStat numero)

/-- An upper-case hexadecimal character. -/
def isHexUpper (c : Char) : Prop :=
  c.isDigit ∨ ('A' ≤ c ∧ c ≤ 'F')

/-! ## Theorems -/

theorem padStart_length (n : Nat) (c : Char) (s : String) :
    (padStart n c s).length = max n s.length := by
  simp [padStart, String.length_append]
  omega

theorem padStart_length_of_le {n : Nat} {s : String} (c : Char)
    (h : s.length ≤ n) : (padStart n c s).length = n := by
  rw [padStart_length]; omega

/-- The characters of a left-padded string: the padding followed by the
original characters. -/
theorem padStart_data (n : Nat) (c : Char) (s : String) :
    (padStart n c s).data = List.replicate (n - s.length) c ++ s.data := by
  simp [padStart, String.length_append]

/-- Every character of `Nat.repr n` is a decimal digit. -/
theorem natRepr_isDigit (n : Nat) : ∀ c ∈ (Nat.repr n).data, c.isDigit := by
  have core : ∀ (fuel m : Nat) (acc : List Char),
      (∀ c ∈ acc, c.isDigit) → ∀ c ∈ Nat.toDigitsCore 10 fuel m acc, c.isDigit := by
    intro fuel
    induction fuel with
    | zero => intro m acc hacc; simpa [Nat.toDigitsCore] using hacc
    | succ f ih =>
      intro m acc hacc
      have hd : (Nat.digitChar (m % 10)).isDigit := by
        have : m % 10 < 10 := Nat.mod_lt _ (by omega)
        interval_cases h : m % 10 <;> decide
      rw [Nat.toDigitsCore]
      split
      · intro c hc
        rcases List.mem_cons.mp hc with h | h
        · simpa [h] using hd
        · exact hacc c h
      · refine ih (m / 10) _ ?_
        intro c hc
        rcases List.mem_cons.mp hc with h | h
        · simpa [h] using hd
        · exact hacc c h
  intro c hc
  have : (Nat.repr n).data = Nat.toDigits 10 n := by
    simp [Nat.repr, List.asString]
  rw [this] at hc
  exact core _ _ _ (by simp) c hc

/-- The decimal representation of `n < 10 ^ k` has at most `k` characters
(`k > 0`). Restatement of Mathlib's `Nat.repr_length` on `String.length`. -/
theorem natRepr_length_le {n k : Nat} (hk : 0 < k) (h : n < 10 ^ k) :
    (Nat.repr n).length ≤ k :=
  Nat.repr_length n k hk h

theorem pesos_getD_mod (k : Nat) : pesos.getD (k % 8) 0 = 2 + k % 8 := by
  have h : k % 8 < 8 := Nat.mod_lt _ (by omega)
  interval_cases h : k % 8 <;> rfl

theorem somaDV_eq_specSomaFrom (l : List Char) :
    ∀ k : Nat, somaDV l (k % 8) = specSomaFrom l k := by
  induction l with
  | nil => intro k; rfl
  | cons c rest ih =>
    intro k
    have h1 : (k % 8 + 1) % 8 = (k + 1) % 8 := by omega
    calc somaDV (c :: rest) (k % 8)
        = digitVal c * pesos.getD (k % 8) 0 + somaDV rest ((k % 8 + 1) % 8) := rfl
      _ = digitVal c * (2 + k % 8) + specSomaFrom rest (k + 1) := by
          rw [pesos_getD_mod, h1, ih (k + 1)]
      _ = specSomaFrom (c :: rest) k := rfl

/-- C1: for every 43-character decimal-digit key prefix, `calcularDV`
returns `"0"` when the weighted sum (weights cycling 2..9 from the
rightmost digit leftwards) is below 2 modulo 11, and otherwise the single
digit character for `11 -` that remainder. -/
theorem calcularDV_matches_mod11_spec (chave43 : List Char)
    (hlen : chave43.length = 43) (hdig : ∀ c ∈ chave43, c.isDigit) :
    calcularDV chave43 =
      if specSomaPonderada chave43 % 11 < 2 then "0"
      else String.mk [Char.ofNat (48 + (11 - specSomaPonderada chave43 % 11))] := by
  have hsum : somaDV chave43.reverse 0 = specSomaPonderada chave43 := by
    simpa using somaDV_eq_specSomaFrom chave43.reverse 0
  unfold calcularDV
  rw [hsum]
  by_cases hlt : specSomaPonderada chave43 % 11 < 2
  · simp [hlt]
  · have hub : specSomaPonderada chave43 % 11 < 11 := Nat.mod_lt _ (by omega)
    have hlb : 2 ≤ specSomaPonderada chave43 % 11 := Nat.not_lt.mp hlt
    simp only [if_neg hlt]
    interval_cases h : specSomaPonderada chave43 % 11 <;> rfl

/-- C1 witness: the theorem applied to a concrete 43-digit key. -/
theorem calcularDV_matches_mod11_spec_witness :
    calcularDV ("5024011122233300018155001000000001123456780".toList) =
      if specSomaPonderada ("5024011122233300018155001000000001123456780".toList) % 11 < 2
      then "0"
      else String.mk [Char.ofNat (48 + (11 -
        specSomaPonderada ("5024011122233300018155001000000001123456780".toList) % 11))] :=
  calcularDV_matches_mod11_spec _ (by decide) (by decide)

/-- Every padStart-by-zeros of a digit string is a digit string. -/
theorem padStart_zero_digits {s : String} (n : Nat)
    (hd : ∀ c ∈ s.data, c.isDigit) :
    ∀ c ∈ (padStart n '0' s).data, c.isDigit := by
  rw [padStart_data]
  intro c hc
  rcases List.mem_append.mp hc with h | h
  · rw [List.eq_of_mem_replicate h]; decide
  · exact hd c h

/-- The check digit is always a single decimal digit character. -/
theorem calcularDV_single_digit (l : List Char) :
    (calcularDV l).length = 1 ∧ ∀ c ∈ (calcularDV l).data, c.isDigit := by
  unfold calcularDV
  by_cases h : somaDV l.reverse 0 % 11 < 2
  · simp only [if_pos h]; decide
  · have hub : somaDV l.reverse 0 % 11 < 11 := Nat.mod_lt _ (by omega)
    have hlb : 2 ≤ somaDV l.reverse 0 % 11 := Nat.not_lt.mp h
    simp only [if_neg h]
    interval_cases h : somaDV l.reverse 0 % 11 <;> decide

/-- The nonce generator always yields 8 decimal digits. -/
theorem gerarCodigoNumerico_shape {r : Nat} (h : r < 100000000) :
    (gerarCodigoNumerico r).length = 8 ∧
    ∀ c ∈ (gerarCodigoNumerico r).data, c.isDigit := by
  constructor
  · exact padStart_length_of_le _ (natRepr_length_le (by omega)
      (by have : (10 : Nat) ^ 8 = 100000000 := by norm_num
          omega))
  · exact padStart_zero_digits _ (natRepr_isDigit r)

/-- C2: with a 14-digit cleaned issuer tax id, a 2-digit region code and
model, a 4-digit year/month, a series in 1..999, a number below 10^9 and an
8-digit nonce, the generated access key is exactly 44 decimal digits and is
the concatenation of region code, year/month, tax id, model, 3-digit
zero-padded series, 9-digit zero-padded number, emission type `"1"`, nonce,
and the check digit computed over the first 43 digits. -/
theorem montarChaveAcesso_spec (mod : String) (i : ChaveInput)
    (hcufl : i.cUF.length = 2) (hcufd : ∀ c ∈ i.cUF.data, c.isDigit)
    (haamml : i.AAMM.length = 4) (haammd : ∀ c ∈ i.AAMM.data, c.isDigit)
    (hcnpjl : i.cnpj.length = 14) (hcnpjd : ∀ c ∈ i.cnpj.data, c.isDigit)
    (hmodl : mod.length = 2) (hmodd : ∀ c ∈ mod.data, c.isDigit)
    (hser1 : 1 ≤ i.serie) (hser3 : i.serie ≤ 999)
    (hnum : i.numero ≤ 999999999)
    (hcnfl : i.cNF.length = 8) (hcnfd : ∀ c ∈ i.cNF.data, c.isDigit) :
    (montarChaveAcesso mod i).length = 44 ∧
    (∀ c ∈ (montarChaveAcesso mod i).data, c.isDigit) ∧
    montarChaveAcesso mod i =
      (i.cUF ++ i.AAMM ++ i.cnpj ++ mod ++
        padStart 3 '0' (Nat.repr i.serie) ++
        padStart 9 '0' (Nat.repr i.numero) ++ "1" ++ i.cNF) ++
      calcularDV (i.cUF ++ i.AAMM ++ i.cnpj ++ mod ++
        padStart 3 '0' (Nat.repr i.serie) ++
        padStart 9 '0' (Nat.repr i.numero) ++ "1" ++ i.cNF).toList := by
  have hser0 : (if i.serie = 0 then 1 else i.serie) = i.serie := by
    have hne : i.serie ≠ 0 := by omega
    simp [hne]
  have h43 : montarChave43 mod i =
      i.cUF ++ i.AAMM ++ i.cnpj ++ mod ++
        padStart 3 '0' (Nat.repr i.serie) ++
        padStart 9 '0' (Nat.repr i.numero) ++ "1" ++ i.cNF := by
    unfold montarChave43
    rw [hser0]
  have hsl : (padStart 3 '0' (Nat.repr i.serie)).length = 3 :=
    padStart_length_of_le _ (natRepr_length_le (by omega)
      (by have : (10 : Nat) ^ 3 = 1000 := by norm_num
          omega))
  have hnl : (padStart 9 '0' (Nat.repr i.numero)).length = 9 :=
    padStart_length_of_le _ (natRepr_length_le (by omega)
      (by have : (10 : Nat) ^ 9 = 1000000000 := by norm_num
          omega))
  have hdv := calcularDV_single_digit (montarChave43 mod i).toList
  have hlen43 : (montarChave43 mod i).length = 43 := by
    rw [h43]
    have h1 : ("1" : String).length = 1 := rfl
    simp [String.length_append, hcufl, haamml, hcnpjl, hmodl, hsl, hnl, hcnfl, h1]
  refine ⟨?_, ?_, ?_⟩
  · unfold montarChaveAcesso
    rw [String.length_append, hlen43, hdv.1]
  · unfold montarChaveAcesso
    intro c hc
    rw [String.data_append] at hc
    rcases List.mem_append.mp hc with hmem | hmem
    · rw [h43] at hmem
      simp only [String.data_append] at hmem
      rcases List.mem_append.mp hmem with hm | hm
      rotate_left
      · exact hcnfd c hm
      rcases List.mem_append.mp hm with hm | hm
      rotate_left
      · have hc1 : c = '1' := by simpa using hm
        rw [hc1]; decide
      rcases List.mem_append.mp hm with hm | hm
      rotate_left
      · exact padStart_zero_digits _ (natRepr_isDigit _) c hm
      rcases List.mem_append.mp hm with hm | hm
      rotate_left
      · exact padStart_zero_digits _ (natRepr_isDigit _) c hm
      rcases List.mem_append.mp hm with hm | hm
      rotate_left
      · exact hmodd c hm
      rcases List.mem_append.mp hm with hm | hm
      rotate_left
      · exact hcnpjd c hm
      rcases List.mem_append.mp hm with hm | hm
      · exact hcufd c hm
      · exact haammd c hm
    · exact hdv.2 c hmem
  · unfold montarChaveAcesso
    rw [h43]

/-- C2 witness: the theorem applied to concrete inputs (NFC-e model "65",
issuer tax id 11222333000181, series 1, number 1, nonce 12345678). -/
theorem montarChaveAcesso_spec_witness :
    (montarChaveAcesso "65" ⟨"50", "2510", "11222333000181", 1, 1, "12345678"⟩).length = 44 :=
  (montarChaveAcesso_spec "65" ⟨"50", "2510", "11222333000181", 1, 1, "12345678"⟩
    (by decide) (by decide) (by decide) (by decide) (by decide) (by decide)
    (by decide) (by decide) (by decide) (by decide) (by decide) (by decide)
    (by decide)).1

/-- C3: `next` returns the stored counter plus one and persists that value;
on a key with no counter the first call returns 1.  Stated for both the
NF-e and the NFC-e v2 sequencer. -/
theorem obterProximoNumero_spec (store : NumStore) (cnpj : String)
    (serie : Nat) :
    (obterProximoNumero store cnpj serie).1 =
      (store (chaveNumeracao cnpj serie)).getD 0 + 1 ∧
    (obterProximoNumero store cnpj serie).2 (chaveNumeracao cnpj serie) =
      some ((obterProximoNumero store cnpj serie).1) ∧
    (store (chaveNumeracao cnpj serie) = none →
      (obterProximoNumero store cnpj serie).1 = 1) ∧
    (obterProximoNumeroNFCeV2 store cnpj serie).1 =
      (store (chaveNumeracaoNFCeV2 cnpj serie)).getD 0 + 1 ∧
    (obterProximoNumeroNFCeV2 store cnpj serie).2 (chaveNumeracaoNFCeV2 cnpj serie) =
      some ((obterProximoNumeroNFCeV2 store cnpj serie).1) ∧
    (store (chaveNumeracaoNFCeV2 cnpj serie) = none →
      (obterProximoNumeroNFCeV2 store cnpj serie).1 = 1) := by
  refine ⟨rfl, ?_, ?_, rfl, ?_, ?_⟩
  · simp [obterProximoNumero, NumStore.set]
  · intro h; simp [obterProximoNumero, h]
  · simp [obterProximoNumeroNFCeV2, NumStore.set]
  · intro h; simp [obterProximoNumeroNFCeV2, h]

/-- C3 witness: on an empty store the first call returns 1 for a fresh
issuer/series key. -/
theorem obterProximoNumero_spec_witness :
    (obterProximoNumero (fun _ => none) "11222333000181" 1).1 = 1 :=
  (obterProximoNumero_spec (fun _ => none) "11222333000181" 1).2.2.1 rfl

theorem applySeqOp_mono (store : NumStore) (op : SeqOp) (k : String) :
    (store k).getD 0 ≤ ((applySeqOp store op) k).getD 0 := by
  cases op with
  | next c s =>
    by_cases hk : k = chaveNumeracao c s
    · subst hk
      simp [applySeqOp, obterProximoNumero, NumStore.set]
    · simp [applySeqOp, obterProximoNumero, NumStore.set, hk]
  | advance c s n =>
    cases hst : store (chaveNumeracao c s) with
    | none =>
      by_cases hk : k = chaveNumeracao c s
      · subst hk
        simp [applySeqOp, atualizarUltimoNumero, hst, NumStore.set]
      · simp [applySeqOp, atualizarUltimoNumero, hst, NumStore.set, hk]
    | some u =>
      by_cases hlt : u < n
      · by_cases hk : k = chaveNumeracao c s
        · subst hk
          simp [applySeqOp, atualizarUltimoNumero, hst, hlt, NumStore.set]
          omega
        · simp [applySeqOp, atualizarUltimoNumero, hst, hlt, NumStore.set, hk]
      · simp [applySeqOp, atualizarUltimoNumero, hst, hlt]

theorem applySeqOps_mono (ops : List SeqOp) :
    ∀ (store : NumStore) (k : String),
      (store k).getD 0 ≤ ((applySeqOps store ops) k).getD 0 := by
  induction ops with
  | nil => intro store k; exact le_refl _
  | cons op rest ih =>
    intro store k
    exact le_trans (applySeqOp_mono store op k) (ih _ k)

/-- C4 counterexample: the NFC-e `/atualizar-numero` handler — one of the
code paths the claim covers — overwrites the stored counter
unconditionally.  On a store holding 5 it accepts 3 (3 ≤ 5, so the claim
requires a no-op) and the stored counter decreases from 5 to 3. -/
theorem atualizarNumeroRotaNFCe_regresses :
    (atualizarNumeroRotaNFCe
        (NumStore.set (fun _ => none) (chaveNumeracaoNFCe "11222333000181" 1) 5)
        "11222333000181" 1 3) (chaveNumeracaoNFCe "11222333000181" 1) = some 3 ∧
    (NumStore.set (fun _ => none) (chaveNumeracaoNFCe "11222333000181" 1) 5)
        (chaveNumeracaoNFCe "11222333000181" 1) = some 5 ∧
    (3 : Nat) < 5 := by
  refine ⟨?_, ?_, by omega⟩ <;>
    simp [atualizarNumeroRotaNFCe, NumStore.set]

/-- C4 (amended): the NF-e sequencer's `advance` (`atualizarUltimoNumero`)
is a no-op when the new number does not exceed the stored counter, writes
the new number when it does, and under any sequence of `next`/`advance`
operations through the sequencer the stored counter never decreases.  (The
NFC-e `/atualizar-numero` route handlers, by contrast, overwrite the
counter unconditionally — see the counterexample.) -/
theorem atualizarUltimoNumero_monotonic (store : NumStore) (cnpj : String)
    (serie numero : Nat) :
    (∀ cur, store (chaveNumeracao cnpj serie) = some cur → numero ≤ cur →
      atualizarUltimoNumero store cnpj serie numero = store) ∧
    (∀ cur, store (chaveNumeracao cnpj serie) = some cur → cur < numero →
      (atualizarUltimoNumero store cnpj serie numero)
        (chaveNumeracao cnpj serie) = some numero) ∧
    (∀ ops : List SeqOp, ∀ k : String,
      (store k).getD 0 ≤ ((applySeqOps store ops) k).getD 0) := by
  refine ⟨?_, ?_, fun ops k => applySeqOps_mono ops store k⟩
  · intro cur hcur hle
    have : ¬ cur < numero := by omega
    simp [atualizarUltimoNumero, hcur, this]
  · intro cur hcur hlt
    simp [atualizarUltimoNumero, hcur, hlt, NumStore.set]

/-- C4 witness: `advance` applied where the stored counter is 5 and the
new number 3 leaves the store unchanged. -/
theorem atualizarUltimoNumero_monotonic_witness :
    atualizarUltimoNumero
        (NumStore.set (fun _ => none) (chaveNumeracao "11222333000181" 1) 5)
        "11222333000181" 1 3 =
      NumStore.set (fun _ => none) (chaveNumeracao "11222333000181" 1) 5 :=
  (atualizarUltimoNumero_monotonic
      (NumStore.set (fun _ => none) (chaveNumeracao "11222333000181" 1) 5)
      "11222333000181" 1 3).1 5 (by simp [NumStore.set]) (by omega)

/-- C5: a region in neither the region-operated set nor the cluster-A set
resolves to the SVRS (cluster B) entry for every service name; a region in
the cluster-A set (and not region-operated) resolves in the SVAN table; a
region-operated region resolves in its own table first, with the SVRS entry
as fallback for a service missing there. -/
theorem getSefazUrls_resolution (uf servico : String) :
    (toUpperStr uf ∉ SEFAZ_PROPRIA → toUpperStr uf ∉ SVAN_ESTADOS →
      getSefazUrls uf servico = urlsSVRS servico) ∧
    (toUpperStr uf ∉ SEFAZ_PROPRIA → toUpperStr uf ∈ SVAN_ESTADOS →
      getSefazUrls uf servico = urlsSVAN servico) ∧
    (∀ tabela, toUpperStr uf ∈ SEFAZ_PROPRIA →
      SEFAZ_URLS (toUpperStr uf) = some tabela →
      getSefazUrls uf servico =
        match tabela servico with
        | some urls => some urls
        | none => urlsSVRS servico) := by
  refine ⟨?_, ?_, ?_⟩
  · intro h1 h2
    unfold getSefazUrls
    rw [if_neg h1]
    simp [h2]
  · intro h1 h2
    unfold getSefazUrls
    rw [if_neg h1]
    simp [h2]
  · intro tabela h1 htab
    unfold getSefazUrls
    rw [if_pos h1, htab]

/-- C5 witness: RJ is in neither the region-operated nor the cluster-A set
and resolves to the SVRS entry for the authorization service. -/
theorem getSefazUrls_resolution_witness :
    getSefazUrls "RJ" "NfeAutorizacao" = urlsSVRS "NfeAutorizacao" :=
  (getSefazUrls_resolution "RJ" "NfeAutorizacao").1 (by decide) (by decide)

/-- C6: when the parsed authority response has top-level status 104 and a
`protNFe` block whose own `cStat` digits and `xMotivo` text are found, the
emission route reports the nested status and reason as the overall result,
and declares success exactly when that nested status is 100. -/
theorem emitir_reports_nested_status (xml p c m : List Char)
    (h104 : (parseAutorizacaoResponse xml).cStat = 104)
    (hprot : (parseAutorizacaoResponse xml).protNFe = some p)
    (hc : scanFirst (matchTagDigitsHere "cStat".toList) p = some c)
    (hm : scanFirst (matchTagTextHere "xMotivo".toList) p = some m) :
    (emitirNFeStatus (parseAutorizacaoResponse xml)).nfeCstat = parseIntDigits c ∧
    (emitirNFeStatus (parseAutorizacaoResponse xml)).nfeXMotivo = m ∧
    ((emitirNFeStatus (parseAutorizacaoResponse xml)).sucesso = true ↔
      parseIntDigits c = 100) := by
  have hpne : p ≠ [] := by
    intro he
    rw [he] at hc
    simp [scanFirst] at hc
  have htruthy : protTruthy (parseAutorizacaoResponse xml).protNFe = true := by
    rw [hprot]
    simp [protTruthy, hpne]
  unfold emitirNFeStatus
  rw [if_pos ⟨h104, htruthy⟩]
  rw [hprot]
  have hc2 : scanFirst (matchTagDigitsHere ['c', 'S', 't', 'a', 't']) p = some c := hc
  have hm2 : scanFirst (matchTagTextHere ['x', 'M', 'o', 't', 'i', 'v', 'o']) p = some m := hm
  simp [hc2, hm2]

set_option maxRecDepth 100000 in
/-- C6 witness: on the sample 104-wrapping-100 reply the route reports
status 100. -/
theorem emitir_reports_nested_status_witness :
    (emitirNFeStatus (parseAutorizacaoResponse resposta104Exemplo)).nfeCstat =
      parseIntDigits "100".toList ∧
    (emitirNFeStatus (parseAutorizacaoResponse resposta104Exemplo)).nfeXMotivo =
      "Autorizado o uso da NF-e".toList ∧
    ((emitirNFeStatus (parseAutorizacaoResponse resposta104Exemplo)).sucesso = true ↔
      parseIntDigits "100".toList = 100) :=
  emitir_reports_nested_status resposta104Exemplo protNFeExemplo
    "100".toList "Autorizado o uso da NF-e".toList
    (by decide) (by decide) (by decide) (by decide)

/-- C7: the QR-code hash is the upper-case hexadecimal SHA-1 of the string
joining, with the layout's pipe separator, the access key, the protocol
version "2", the environment flag and the 6-digit-padded identifier — with
the secret appended immediately after the identifier, no separator in
between. -/
theorem beBytes_length (k n : Nat) : (beBytes k n).length = k := by
  induction k generalizing n with
  | zero => rfl
  | succ k ih => simp [beBytes, ih]

theorem beBytes_lt (k n : Nat) : ∀ b ∈ beBytes k n, b < 256 := by
  induction k generalizing n with
  | zero => intro b hb; simp [beBytes] at hb
  | succ k ih =>
    intro b hb
    rcases List.mem_cons.mp hb with h | h
    · subst h; exact Nat.mod_lt _ (by omega)
    · exact ih n b h

theorem sha1_length (msg : List Nat) : (sha1 msg).length = 20 := by
  simp [sha1, beBytes_length]

theorem sha1_bytes_lt (msg : List Nat) : ∀ b ∈ sha1 msg, b < 256 := by
  intro b hb
  simp only [sha1, List.mem_append] at hb
  rcases hb with ((((h | h) | h) | h) | h) <;> exact beBytes_lt 4 _ b h

theorem hexCharLower_toUpper {m : Nat} (hm : m < 16) :
    isHexUpper (Char.toUpper (hexCharLower m)) := by
  unfold isHexUpper
  interval_cases m <;> decide

theorem sha1HexUpper_shape (s : String) :
    (sha1HexUpper s).length = 40 ∧ ∀ c ∈ (sha1HexUpper s).data, isHexUpper c := by
  have hlen2 : ∀ bytes : List Nat,
      ((bytes.map (fun b => [hexCharLower (b / 16), hexCharLower (b % 16)])).join).length
        = 2 * bytes.length := by
    intro bytes
    induction bytes with
    | nil => rfl
    | cons b bs ih =>
      have hstep : ((b :: bs).map
            (fun b => [hexCharLower (b / 16), hexCharLower (b % 16)])).join
          = [hexCharLower (b / 16), hexCharLower (b % 16)] ++
            (bs.map (fun b => [hexCharLower (b / 16), hexCharLower (b % 16)])).join := rfl
      rw [hstep, List.length_append, ih]
      simp only [List.length_cons, List.length_nil]
      omega
  constructor
  · have h1 : (sha1HexUpper s).length
        = (((sha1 (utf8Bytes s)).map
            (fun b => [hexCharLower (b / 16), hexCharLower (b % 16)])).join).length := by
      show ((hexLower (sha1 (utf8Bytes s))).data.map Char.toUpper).length = _
      rw [List.length_map]
      rfl
    rw [h1, hlen2, sha1_length]
  · intro c hc
    have hc1 : c ∈ ((hexLower (sha1 (utf8Bytes s))).data.map Char.toUpper) := hc
    obtain ⟨c0, hc0, rfl⟩ := List.mem_map.mp hc1
    have hc2 : c0 ∈ ((sha1 (utf8Bytes s)).map
        (fun b => [hexCharLower (b / 16), hexCharLower (b % 16)])).join := hc0
    obtain ⟨l, hl, hcl⟩ := List.mem_join.mp hc2
    obtain ⟨b, hb, rfl⟩ := List.mem_map.mp hl
    have hb256 : b < 256 := sha1_bytes_lt _ b hb
    rcases List.mem_cons.mp hcl with h | h
    · subst h
      exact hexCharLower_toUpper (by omega)
    · rcases List.mem_cons.mp h with h | h
      · subst h
        exact hexCharLower_toUpper (Nat.mod_lt _ (by omega))
      · simp at h

theorem gerarQRCode_hash_spec (chaveAcesso tpAmb cscId csc uf : String) :
    (gerarQRCode chaveAcesso tpAmb cscId csc uf).cHashQRCode =
      toUpperStr (hexLower (sha1 (utf8Bytes
        (String.intercalate "|" [chaveAcesso, "2", tpAmb, padStart 6 '0' cscId]
          ++ csc)))) ∧
    (gerarQRCode chaveAcesso tpAmb cscId csc uf).cHashQRCode.length = 40 ∧
    ∀ c ∈ (gerarQRCode chaveAcesso tpAmb cscId csc uf).cHashQRCode.data,
      isHexUpper c := by
  refine ⟨rfl, ?_, ?_⟩
  · exact (sha1HexUpper_shape _).1
  · exact (sha1HexUpper_shape _).2

set_option maxRecDepth 100000 in
/-- Sanity check of the SHA-1 embedding against the published test vector
for the string "abc". -/
theorem sha1HexUpper_abc :
    sha1HexUpper "abc" = "A9993E364706816ABA3E25717850C26C9CD0D89D" := by decide

theorem hasDecimals_length {s : String} {k : Nat} (h : hasDecimals s k) :
    k + 1 ≤ s.length := by
  obtain ⟨ip, fp, hs, hlen, -, -⟩ := h
  subst hs
  have hdot : ("." : String).length = 1 := rfl
  simp [String.length_append, hdot]
  omega

/-- `toFixed k` of a nonnegative rational always carries exactly `k`
decimal places. -/
theorem toFixed_hasDecimals {q : ℚ} (hq : 0 ≤ q) {k : Nat} (hk : 0 < k) :
    hasDecimals (toFixed k q) k := by
  have hfl : (0 : Int) ≤ ⌊q * (10 : ℚ) ^ k + 1 / 2⌋ := by
    apply Int.floor_nonneg.mpr
    positivity
  have hneg : ¬ (⌊q * (10 : ℚ) ^ k + 1 / 2⌋ < 0) := by omega
  refine ⟨(if ⌊q * (10 : ℚ) ^ k + 1 / 2⌋ < 0 then "-" else "") ++
      Nat.repr ((⌊q * (10 : ℚ) ^ k + 1 / 2⌋).natAbs / 10 ^ k),
    padStart k '0' (Nat.repr ((⌊q * (10 : ℚ) ^ k + 1 / 2⌋).natAbs % 10 ^ k)),
    rfl, ?_, ?_, ?_⟩
  · exact padStart_length_of_le _ (natRepr_length_le hk
      (Nat.mod_lt _ (Nat.pos_pow_of_pos k (by omega))))
  · exact padStart_zero_digits _ (natRepr_isDigit _)
  · rw [if_neg hneg]
    intro hmem
    rw [String.data_append] at hmem
    rcases List.mem_append.mp hmem with h | h
    · simp at h
    · have := natRepr_isDigit _ _ h
      simp at this

/-- C8 counterexample: in the direct NF-e assembler a line with quantity 1
renders `qCom` as `"1.00"` — two decimal places, not the four the claim
requires. -/
theorem montarItemNFe_qCom_two_decimals :
    (montarItemNFe ⟨some 10, some 10, some 1⟩).qCom = "1.00" ∧
    ¬ hasDecimals (montarItemNFe ⟨some 10, some 10, some 1⟩).qCom 4 := by
  have h1 : (montarItemNFe ⟨some 10, some 10, some 1⟩).qCom = "1.00" := by
    show toFixed 2 (1 : ℚ) = "1.00"
    unfold toFixed
    have hfl : ⌊(1 : ℚ) * 10 ^ 2 + 1 / 2⌋ = (100 : Int) := by
      apply Int.floor_eq_iff.mpr
      constructor <;> norm_num
    rw [hfl]
    rfl
  refine ⟨h1, ?_⟩
  intro hd
  have := hasDecimals_length hd
  rw [h1] at this
  simp [String.length] at this

/-- C8 (amended): the NFC-e assembler renders the quantity and unit-price
fields (`qCom`, `vUnCom`, `qTrib`, `vUnTrib`) with exactly 4 decimal
places and every monetary value (line total, product total, document
total, payment value) with exactly 2; the direct NF-e assembler, by
contrast, renders its quantity and unit-price fields with exactly 2
decimal places. -/
theorem camposDecimais_spec (item : Item) (itens : List Item)
    (pagamentoValor : Option ℚ)
    (hqt : 0 ≤ item.quantidade.getD 1)
    (hvu : 0 ≤ item.valor_unitario.getD 0)
    (hvt : 0 ≤ item.valor_total.getD 0)
    (hquant : 0 ≤ item.quantidade.getD 0)
    (hsum : 0 ≤ ((itens.map (fun it => it.valor_total.getD 0)).sum : ℚ))
    (hpag : 0 ≤ pagamentoValor.getD 0) :
    hasDecimals (montarItemNFCe item).qCom 4 ∧
    hasDecimals (montarItemNFCe item).vUnCom 4 ∧
    hasDecimals (montarItemNFCe item).qTrib 4 ∧
    hasDecimals (montarItemNFCe item).vUnTrib 4 ∧
    hasDecimals (montarItemNFCe item).vProd 2 ∧
    hasDecimals (totaisNFCe itens pagamentoValor).1 2 ∧
    hasDecimals (totaisNFCe itens pagamentoValor).2.1 2 ∧
    hasDecimals (totaisNFCe itens pagamentoValor).2.2 2 ∧
    hasDecimals (montarItemNFe item).qCom 2 ∧
    hasDecimals (montarItemNFe item).vUnCom 2 := by
  have hpagv : hasDecimals (totaisNFCe itens pagamentoValor).2.2 2 := by
    cases pagamentoValor with
    | none =>
      dsimp only [totaisNFCe, formatarValor, Option.getD_some]
      exact toFixed_hasDecimals hsum (by omega)
    | some v =>
      dsimp only [totaisNFCe, formatarValor, Option.getD_some]
      by_cases hv : v = 0
      · rw [if_pos hv]
        exact toFixed_hasDecimals hsum (by omega)
      · rw [if_neg hv]
        exact toFixed_hasDecimals (by simpa using hpag) (by omega)
  refine ⟨?_, ?_, ?_, ?_, ?_, ?_, ?_, hpagv, ?_, ?_⟩ <;>
    dsimp only [montarItemNFCe, montarItemNFe, totaisNFCe, formatarValor,
      formatarValorUnitario, Option.getD_some]
  · exact toFixed_hasDecimals hqt (by omega)
  · exact toFixed_hasDecimals hvu (by omega)
  · exact toFixed_hasDecimals hqt (by omega)
  · exact toFixed_hasDecimals hvu (by omega)
  · exact toFixed_hasDecimals hvt (by omega)
  · exact toFixed_hasDecimals hsum (by omega)
  · exact toFixed_hasDecimals hsum (by omega)
  · exact toFixed_hasDecimals hquant (by omega)
  · exact toFixed_hasDecimals hvu (by omega)

/-- C8 witness: the amended theorem applied to one concrete line item
(quantity 1, unit price 10, line total 10, payment value 10). -/
theorem camposDecimais_spec_witness :
    hasDecimals (montarItemNFCe ⟨some 10, some 10, some 1⟩).qCom 4 ∧
    hasDecimals (montarItemNFCe ⟨some 10, some 10, some 1⟩).vUnCom 4 ∧
    hasDecimals (montarItemNFCe ⟨some 10, some 10, some 1⟩).qTrib 4 ∧
    hasDecimals (montarItemNFCe ⟨some 10, some 10, some 1⟩).vUnTrib 4 ∧
    hasDecimals (montarItemNFCe ⟨some 10, some 10, some 1⟩).vProd 2 ∧
    hasDecimals (totaisNFCe [⟨some 10, some 10, some 1⟩] (some 10)).1 2 ∧
    hasDecimals (totaisNFCe [⟨some 10, some 10, some 1⟩] (some 10)).2.1 2 ∧
    hasDecimals (totaisNFCe [⟨some 10, some 10, some 1⟩] (some 10)).2.2 2 ∧
    hasDecimals (montarItemNFe ⟨some 10, some 10, some 1⟩).qCom 2 ∧
    hasDecimals (montarItemNFe ⟨some 10, some 10, some 1⟩).vUnCom 2 :=
  camposDecimais_spec ⟨some 10, some 10, some 1⟩ [⟨some 10, some 10, some 1⟩]
    (some 10) (by norm_num) (by norm_num) (by norm_num) (by norm_num)
    (by norm_num) (by norm_num)

/-- C10: once a request passes the input validations, the emission route
persists the incremented counter for its (issuer, series) key, and it
stays persisted whatever the outcome of signing, endpoint resolution,
transmission or authorization — every post-validation attempt consumes
one document number. -/
theorem emitirNFCeV2_consome_numero (store : NumStore) (req : EmitirNFCeReq)
    (passos : PassosExternos)
    (h1 : ¬(req.emitenteCnpj.isNone ∨ (req.emitenteCnpj.getD "").isEmpty))
    (h2 : ¬req.itens.isEmpty = true)
    (h3 : ¬(req.certificado.isNone ∨ req.certificadoSenha.isNone))
    (h4 : ¬(req.cscId.isNone ∨ req.cscToken.isNone)) :
    (emitirNFCeV2 store req passos).1
        (chaveNumeracaoNFCeV2 (emitirCnpj req) (emitirSerie req)) =
      some ((store (chaveNumeracaoNFCeV2 (emitirCnpj req) (emitirSerie req))).getD 0 + 1) ∧
    (emitirNFCeV2 store req passos).2 ≠ EmitirResultado.badRequest := by
  unfold emitirNFCeV2
  rw [if_neg h1, if_neg h2, if_neg h3, if_neg h4]
  dsimp only
  constructor
  · split
    · simp [obterProximoNumeroNFCeV2, NumStore.set]
    · split
      · simp [obterProximoNumeroNFCeV2, NumStore.set]
      · split
        · simp [obterProximoNumeroNFCeV2, NumStore.set]
        · split
          · simp [obterProximoNumeroNFCeV2, NumStore.set]
          · split
            · simp [obterProximoNumeroNFCeV2, NumStore.set]
            · simp [obterProximoNumeroNFCeV2, NumStore.set]
  · split
    · simp
    · split
      · simp
      · split
        · simp
        · split
          · simp
          · split
            · simp
            · simp

/-- C10 witness: a fully valid request whose signing step fails still
consumes number 1 on a fresh store. -/
theorem emitirNFCeV2_consome_numero_witness :
    (emitirNFCeV2 (fun _ => none)
        ⟨some "11.222.333/0001-81", [⟨some 10, some 10, some 1⟩], some "cert",
          some "senha", some "1", some "token", 1, some "MS"⟩
        ⟨false, false, ⟨0, [], none, none, none, none⟩⟩).1
      (chaveNumeracaoNFCeV2 "11222333000181" 1) = some 1 ∧
    (emitirNFCeV2 (fun _ => none)
        ⟨some "11.222.333/0001-81", [⟨some 10, some 10, some 1⟩], some "cert",
          some "senha", some "1", some "token", 1, some "MS"⟩
        ⟨false, false, ⟨0, [], none, none, none, none⟩⟩).2 ≠
      EmitirResultado.badRequest := by
  have h := emitirNFCeV2_consome_numero (fun _ => none)
    ⟨some "11.222.333/0001-81", [⟨some 10, some 10, some 1⟩], some "cert",
      some "senha", some "1", some "token", 1, some "MS"⟩
    ⟨false, false, ⟨0, [], none, none, none, none⟩⟩
    (by decide) (by decide) (by decide) (by decide)
  simpa [emitirCnpj, emitirSerie, limparDigitos] using h

end NfeProxy
